import Mathlib

/-
Shallow embedding of `src/nrewebservices/ldbws/webservice.py`.

The file under verification defines a single class, `Session`, whose
constructor resolves a WSDL location and an API key (each from an explicit
argument or from an environment variable) and whose only query method,
`get_station_board`, selects one of three remote SOAP operations, builds a
keyword-parameter mapping, performs one remote call and wraps the result.

Python exceptions are modelled by `PyExc`; `Except PyExc` models a Python
computation that may raise.  Python keyword-argument dictionaries are
modelled by association lists in insertion order.
-/

set_option autoImplicit false

namespace LDBWS

/-- The Python exceptions that can arise in the embedded code paths. -/
inductive PyExc where
  | nameError (name : String)
  | keyError (key : String)
  | attributeError
  | valueError (msg : String)
deriving Repr, DecidableEq

/-- A process environment: maps a variable name to its value, if set. -/
def Env : Type := String → Option String

/-- The names bound at module level in `webservice.py` by the time
`Session.__init__` runs.  The module imports `StationBoard`, `Client`,
`Element` and `logging`, and defines `log`, `LDBWS_NAMESPACE` and `Session`;
it never imports `os`. -/
def webserviceModuleNames : List String :=
  ["StationBoard", "Client", "Element", "logging", "log", "LDBWS_NAMESPACE", "Session"]

/-- Evaluation of the Python expression `os.environ[key]` inside
`webservice.py`: first the name `os` is resolved in the module namespace
(raising `NameError` when unbound), then the subscript raises `KeyError`
when the variable is unset. -/
def evalOsEnvironLookup (env : Env) (key : String) : Except PyExc String :=
  if "os" ∈ webserviceModuleNames then
    match env key with
    | some v => Except.ok v
    | none => Except.error (PyExc.keyError key)
  else Except.error (PyExc.nameError "os")

/-- A `try ... except AttributeError: handler` block around a computation
producing a string. -/
def tryExceptAttributeError (body handler : Except PyExc String) : Except PyExc String :=
  match body with
  | Except.error PyExc.attributeError => handler
  | r => r

/-- Python truthiness of an optional string argument: `None` and the empty
string are falsy, every other string is truthy. -/
def pyTruthyStr : Option String → Bool
  | none => false
  | some s => if s = "" then false else true

/-- The message of the `ValueError` raised when the WSDL is missing. -/
def wsdlErrMsg : String :=
  "LDBWS WSDL must be either explicitly provided to the Session initializer or via the environment variable NRE_LDBWS_WSDL."

/-- The message of the `ValueError` raised when the API key is missing. -/
def apiKeyErrMsg : String :=
  "LDBWS API key must be either explicitly provided to the Session initializer or via the environment variable NRE_LDBWS_API_KEY."

/-- One configuration setting of `Session.__init__`: keep a truthy explicit
argument; otherwise evaluate `os.environ[envVar]` inside a
`try ... except AttributeError` block whose handler raises
`ValueError errMsg`. -/
def resolveSetting (env : Env) (arg : Option String) (envVar errMsg : String) :
    Except PyExc String :=
  if pyTruthyStr arg then Except.ok (arg.getD "")
  else
    tryExceptAttributeError (evalOsEnvironLookup env envVar)
      (Except.error (PyExc.valueError errMsg))

/-- The configuration a successfully constructed `Session` holds. -/
structure SessionConfig where
  wsdl : String
  api_key : String
deriving Repr, DecidableEq

/-- The configuration-resolution phase of `Session.__init__`: resolve the
WSDL, then the API key.  (The subsequent SOAP-client construction is a
network effect outside this phase.) -/
def sessionInit (env : Env) (wsdl api_key : Option String) :
    Except PyExc SessionConfig :=
  match resolveSetting env wsdl "NRE_LDBWS_WSDL" wsdlErrMsg with
  | Except.error e => Except.error e
  | Except.ok w =>
    match resolveSetting env api_key "NRE_LDBWS_API_KEY" apiKeyErrMsg with
    | Except.error e => Except.error e
    | Except.ok k => Except.ok ⟨w, k⟩

/-- A value placed in the outgoing keyword-parameter mapping. -/
inductive PValue where
  | str (s : String)
  | int (n : Int)
deriving Repr, DecidableEq

/-- The three remote SOAP operations `get_station_board` can select. -/
inductive SoapOperation where
  | getArrivalDepartureBoard
  | getDepartureBoard
  | getArrivalBoard
deriving Repr, DecidableEq

/-- The message of the `ValueError` raised when neither inclusion flag is
set. -/
def boardErrMsg : String :=
  "When calling get_station_board, either include_departures or include_arrivals must be set to True."

/-- The operation-selection chain at the top of `get_station_board`. -/
def selectQuery (include_departures include_arrivals : Bool) :
    Except PyExc SoapOperation :=
  if include_departures && include_arrivals then
    Except.ok SoapOperation.getArrivalDepartureBoard
  else if include_departures then Except.ok SoapOperation.getDepartureBoard
  else if include_arrivals then Except.ok SoapOperation.getArrivalBoard
  else Except.error (PyExc.valueError boardErrMsg)

/-- The `params` dictionary built by `get_station_board`, as an association
list in insertion order, paired with whether `log.warn` was called.  Mirrors
the source: `crs` and `numRows` first; then the filter keys, with a truthy
`to_filter_crs` taking precedence (warning when `from_filter_crs` is also
truthy); then `timeOffset` and `timeWindow` exactly when the arguments are
not `None`. -/
def buildParams (crs : String) (rows : Int)
    (from_filter_crs to_filter_crs : Option String)
    (time_offset time_window : Option Int) :
    List (String × PValue) × Bool :=
  let base := [("crs", PValue.str crs), ("numRows", PValue.int rows)]
  let filterPart : List (String × PValue) × Bool :=
    if pyTruthyStr to_filter_crs then
      ([("filterCrs", PValue.str (to_filter_crs.getD "")),
        ("filterType", PValue.str "to")], pyTruthyStr from_filter_crs)
    else if pyTruthyStr from_filter_crs then
      ([("filterCrs", PValue.str (from_filter_crs.getD "")),
        ("filterType", PValue.str "from")], false)
    else ([], false)
  let timePart :=
    (match time_offset with
     | some t => [("timeOffset", PValue.int t)]
     | none => []) ++
    (match time_window with
     | some t => [("timeWindow", PValue.int t)]
     | none => [])
  (base ++ filterPart.1 ++ timePart, filterPart.2)

/-- The keys of a parameter mapping, in insertion order. -/
def paramKeys (ps : List (String × PValue)) : List String := ps.map Prod.fst

/-- The single remote SOAP request `get_station_board` issues when
validation passes: the selected operation and the keyword parameters. -/
structure SoapRequest where
  op : SoapOperation
  params : List (String × PValue)
deriving Repr, DecidableEq

/-- The observable outcome of the pre-network part of `get_station_board`:
the request about to be sent and whether a warning was logged. -/
structure BoardCall where
  request : SoapRequest
  warned : Bool
deriving Repr, DecidableEq

/-- `get_station_board` up to (but not including) the remote call: select
the operation (raising `ValueError` when neither inclusion flag is set),
then build the parameter mapping. -/
def get_station_board (crs : String) (rows : Int)
    (include_departures include_arrivals : Bool)
    (from_filter_crs to_filter_crs : Option String)
    (time_offset time_window : Option Int) : Except PyExc BoardCall :=
  match selectQuery include_departures include_arrivals with
  | Except.error e => Except.error e
  | Except.ok op =>
    let pw := buildParams crs rows from_filter_crs to_filter_crs time_offset time_window
    Except.ok ⟨⟨op, pw.1⟩, pw.2⟩

/-- How many remote calls one invocation of `get_station_board` performs:
the source reaches the single `query(**params)` call exactly when the
selection chain did not raise. -/
def remoteCallCount (crs : String) (rows : Int)
    (include_departures include_arrivals : Bool)
    (from_filter_crs to_filter_crs : Option String)
    (time_offset time_window : Option Int) : Nat :=
  match get_station_board crs rows include_departures include_arrivals
      from_filter_crs to_filter_crs time_offset time_window with
  | Except.ok _ => 1
  | Except.error _ => 0

/-- The response wrapper returned to the caller; `StationBoard` itself lives
in `responses.py` and only wraps the raw SOAP response here. -/
structure StationBoard (α : Type) where
  soap_response : α
deriving Repr, DecidableEq

/-- The whole of `get_station_board`, with the remote service abstracted as
a function from the request to a response or a raised fault.  The source has
no `try`/`except` around `soap_response = query(**params)`, so a fault from
`remote` flows to the caller unchanged. -/
def get_station_board_run {α : Type} (remote : SoapRequest → Except PyExc α)
    (crs : String) (rows : Int)
    (include_departures include_arrivals : Bool)
    (from_filter_crs to_filter_crs : Option String)
    (time_offset time_window : Option Int) : Except PyExc (StationBoard α) :=
  match get_station_board crs rows include_departures include_arrivals
      from_filter_crs to_filter_crs time_offset time_window with
  | Except.error e => Except.error e
  | Except.ok call =>
    match remote call.request with
    | Except.error e => Except.error e
    | Except.ok resp => Except.ok ⟨resp⟩

end LDBWS

namespace LDBWS

/-- Claim C1: with the `wsdl` argument absent and `NRE_LDBWS_WSDL` unset,
`Session.__init__` is claimed to raise `ValueError`.  The code instead
raises `NameError` (the module never imports `os`, and the handler catches
`AttributeError` rather than `KeyError`), so no `ValueError` is raised. -/
theorem C1_missing_wsdl_raises_name_error :
    sessionInit (fun _ => none) none none = Except.error (PyExc.nameError "os") ∧
    ∀ msg : String,
      sessionInit (fun _ => none) none none ≠ Except.error (PyExc.valueError msg) := by
  refine ⟨rfl, fun msg h => ?_⟩
  have h1 : (Except.error (PyExc.nameError "os") : Except PyExc SessionConfig) =
      Except.error (PyExc.valueError msg) :=
    (rfl : (Except.error (PyExc.nameError "os") : Except PyExc SessionConfig) =
      sessionInit (fun _ => none) none none).trans h
  exact PyExc.noConfusion (Except.error.inj h1)

/-- Claim C2: with the `api_key` argument absent and `NRE_LDBWS_API_KEY`
unset (here with an explicit `wsdl` provided), `Session.__init__` is
claimed to raise `ValueError`.  The code instead raises `NameError` for the
same reason as in C1. -/
theorem C2_missing_api_key_raises_name_error :
    sessionInit (fun _ => none) (some "http://example.org/wsdl") none =
      Except.error (PyExc.nameError "os") ∧
    ∀ msg : String,
      sessionInit (fun _ => none) (some "http://example.org/wsdl") none ≠
        Except.error (PyExc.valueError msg) := by
  refine ⟨rfl, fun msg h => ?_⟩
  have h1 : (Except.error (PyExc.nameError "os") : Except PyExc SessionConfig) =
      Except.error (PyExc.valueError msg) :=
    (rfl : (Except.error (PyExc.nameError "os") : Except PyExc SessionConfig) =
      sessionInit (fun _ => none) (some "http://example.org/wsdl") none).trans h
  exact PyExc.noConfusion (Except.error.inj h1)

/-- Claim C3: `get_station_board` selects `GetArrivalDepartureBoard` when
both inclusion flags are true, `GetDepartureBoard` when only departures,
`GetArrivalBoard` when only arrivals, and raises `ValueError` when neither
flag is set. -/
theorem C3_operation_selection (crs : String) (rows : Int)
    (ffrom fto : Option String) (toff twin : Option Int) (dep arr : Bool) :
    (dep = true → arr = true →
      ∃ c, get_station_board crs rows dep arr ffrom fto toff twin = Except.ok c ∧
        c.request.op = SoapOperation.getArrivalDepartureBoard) ∧
    (dep = true → arr = false →
      ∃ c, get_station_board crs rows dep arr ffrom fto toff twin = Except.ok c ∧
        c.request.op = SoapOperation.getDepartureBoard) ∧
    (dep = false → arr = true →
      ∃ c, get_station_board crs rows dep arr ffrom fto toff twin = Except.ok c ∧
        c.request.op = SoapOperation.getArrivalBoard) ∧
    (dep = false → arr = false →
      get_station_board crs rows dep arr ffrom fto toff twin =
        Except.error (PyExc.valueError boardErrMsg)) := by
  cases dep <;> cases arr <;>
    refine ⟨fun h1 h2 => ?_, fun h1 h2 => ?_, fun h1 h2 => ?_, fun h1 h2 => ?_⟩ <;>
    simp_all [get_station_board, selectQuery]

/-- Concrete instantiation of the C3 selection rule. -/
theorem C3_operation_selection_witness :
    (∃ c, get_station_board "PAD" 10 true true none none none none = Except.ok c ∧
      c.request.op = SoapOperation.getArrivalDepartureBoard) ∧
    get_station_board "PAD" 10 false false none none none none =
      Except.error (PyExc.valueError boardErrMsg) :=
  ⟨(C3_operation_selection "PAD" 10 none none none none true true).1 rfl rfl,
   (C3_operation_selection "PAD" 10 none none none none false false).2.2.2 rfl rfl⟩

/-- Claim C4: with both inclusion flags false, `get_station_board` raises
`ValueError` and performs zero remote calls. -/
theorem C4_neither_flag_errors_before_network (crs : String) (rows : Int)
    (ffrom fto : Option String) (toff twin : Option Int) :
    get_station_board crs rows false false ffrom fto toff twin =
      Except.error (PyExc.valueError boardErrMsg) ∧
    remoteCallCount crs rows false false ffrom fto toff twin = 0 :=
  ⟨rfl, rfl⟩

/-- Claim C5: when both filter arguments are supplied (truthy), the mapping
carries `filterCrs` equal to `to_filter_crs` with `filterType` `"to"`, the
warning is logged, the mapping is identical to the one built without the
`from` filter, and the `from` value does not occur among the mapping's
values (whenever it does not coincide with another supplied value). -/
theorem C5_both_filters_to_wins (crs : String) (rows : Int) (ffrom fto : String)
    (toff twin : Option Int) (hf : ffrom ≠ "") (ht : fto ≠ "") :
    ("filterCrs", PValue.str fto) ∈
      (buildParams crs rows (some ffrom) (some fto) toff twin).1 ∧
    ("filterType", PValue.str "to") ∈
      (buildParams crs rows (some ffrom) (some fto) toff twin).1 ∧
    (buildParams crs rows (some ffrom) (some fto) toff twin).2 = true ∧
    (buildParams crs rows (some ffrom) (some fto) toff twin).1 =
      (buildParams crs rows none (some fto) toff twin).1 ∧
    (ffrom ≠ crs → ffrom ≠ fto → ffrom ≠ "to" →
      PValue.str ffrom ∉
        ((buildParams crs rows (some ffrom) (some fto) toff twin).1).map Prod.snd) := by
  cases toff <;> cases twin <;>
    refine ⟨by simp [buildParams, pyTruthyStr, hf, ht],
      by simp [buildParams, pyTruthyStr, hf, ht],
      by simp [buildParams, pyTruthyStr, hf, ht],
      by simp [buildParams, pyTruthyStr, hf, ht],
      fun h1 h2 h3 => by simp [buildParams, pyTruthyStr, hf, ht, h1, h2, h3]⟩

/-- Concrete instantiation of the C5 filter-precedence rule. -/
theorem C5_both_filters_to_wins_witness :
    ("BRI" : String) ≠ "" ∧ ("RDG" : String) ≠ "" ∧
    (buildParams "PAD" 10 (some "BRI") (some "RDG") none none).2 = true :=
  ⟨by decide, by decide,
   (C5_both_filters_to_wins "PAD" 10 "BRI" "RDG" none none (by decide) (by decide)).2.2.1⟩

/-- Claim C6: the mapping always has the `crs` and `numRows` keys; the
`filterCrs` and `filterType` keys are present exactly when a (truthy)
filter station was supplied; the `timeOffset` and `timeWindow` keys are
present exactly when the corresponding argument is not `None`, whatever
its value. -/
theorem C6_key_presence (crs : String) (rows : Int) (ffrom fto : Option String)
    (toff twin : Option Int) :
    "crs" ∈ paramKeys (buildParams crs rows ffrom fto toff twin).1 ∧
    "numRows" ∈ paramKeys (buildParams crs rows ffrom fto toff twin).1 ∧
    ("filterCrs" ∈ paramKeys (buildParams crs rows ffrom fto toff twin).1 ↔
      (pyTruthyStr ffrom = true ∨ pyTruthyStr fto = true)) ∧
    ("filterType" ∈ paramKeys (buildParams crs rows ffrom fto toff twin).1 ↔
      (pyTruthyStr ffrom = true ∨ pyTruthyStr fto = true)) ∧
    ("timeOffset" ∈ paramKeys (buildParams crs rows ffrom fto toff twin).1 ↔
      toff ≠ none) ∧
    ("timeWindow" ∈ paramKeys (buildParams crs rows ffrom fto toff twin).1 ↔
      twin ≠ none) := by
  cases toff <;> cases twin <;>
    cases hf : pyTruthyStr ffrom <;> cases ht : pyTruthyStr fto <;>
      simp [buildParams, paramKeys, hf, ht]

/-- Claim C7: the call with station `"PAD"`, 5 rows and only departures
produces exactly the mapping with `crs` and `numRows`, selects the
departures-only operation, logs no warning, and the key list is exactly
those two keys. -/
theorem C7_example_pad_five_rows :
    get_station_board "PAD" 5 true false none none none none =
      Except.ok ⟨⟨SoapOperation.getDepartureBoard,
        [("crs", PValue.str "PAD"), ("numRows", PValue.int 5)]⟩, false⟩ ∧
    paramKeys (buildParams "PAD" 5 none none none none).1 = ["crs", "numRows"] :=
  ⟨rfl, rfl⟩

/-- Claim C8: when the remote call raises any fault, `get_station_board`
propagates it to the caller unchanged: no exception is caught, wrapped or
reclassified between the remote invocation and the caller. -/
theorem C8_fault_propagates_unchanged {α : Type} (remote : SoapRequest → Except PyExc α)
    (crs : String) (rows : Int) (dep arr : Bool) (ffrom fto : Option String)
    (toff twin : Option Int) (call : BoardCall) (e : PyExc)
    (hok : get_station_board crs rows dep arr ffrom fto toff twin = Except.ok call)
    (hfault : remote call.request = Except.error e) :
    get_station_board_run remote crs rows dep arr ffrom fto toff twin =
      Except.error e := by
  simp [get_station_board_run, hok, hfault]

/-- Concrete instantiation of C8: a remote that always faults makes the
whole call return that very fault. -/
theorem C8_fault_propagates_unchanged_witness :
    get_station_board "PAD" 10 true false none none none none =
      Except.ok ⟨⟨SoapOperation.getDepartureBoard,
        [("crs", PValue.str "PAD"), ("numRows", PValue.int 10)]⟩, false⟩ ∧
    get_station_board_run
      (fun _ => (Except.error (PyExc.keyError "transport fault") : Except PyExc Nat))
      "PAD" 10 true false none none none none =
      Except.error (PyExc.keyError "transport fault") :=
  ⟨rfl,
   C8_fault_propagates_unchanged
     (fun _ => (Except.error (PyExc.keyError "transport fault") : Except PyExc Nat))
     "PAD" 10 true false none none none none
     ⟨⟨SoapOperation.getDepartureBoard,
       [("crs", PValue.str "PAD"), ("numRows", PValue.int 10)]⟩, false⟩
     (PyExc.keyError "transport fault") rfl rfl⟩

/-- Claim C9: an empty-string filter argument behaves as an absent one:
with `to_filter_crs` empty and a truthy `from_filter_crs`, the `from`
filter is used with no warning; with both filter arguments empty or
`None`, no filter key appears and no warning is logged. -/
theorem C9_empty_filter_treated_as_absent (crs : String) (rows : Int) (ffrom : String)
    (toff twin : Option Int) (hf : ffrom ≠ "") :
    ("filterCrs", PValue.str ffrom) ∈
      (buildParams crs rows (some ffrom) (some "") toff twin).1 ∧
    ("filterType", PValue.str "from") ∈
      (buildParams crs rows (some ffrom) (some "") toff twin).1 ∧
    (buildParams crs rows (some ffrom) (some "") toff twin).2 = false ∧
    (∀ f t : Option String, (f = none ∨ f = some "") → (t = none ∨ t = some "") →
      "filterCrs" ∉ paramKeys (buildParams crs rows f t toff twin).1 ∧
      "filterType" ∉ paramKeys (buildParams crs rows f t toff twin).1 ∧
      (buildParams crs rows f t toff twin).2 = false) := by
  refine ⟨?_, ?_, ?_, ?_⟩
  · cases toff <;> cases twin <;> simp [buildParams, pyTruthyStr, hf]
  · cases toff <;> cases twin <;> simp [buildParams, pyTruthyStr, hf]
  · cases toff <;> cases twin <;> simp [buildParams, pyTruthyStr, hf]
  · rintro f t (rfl | rfl) (rfl | rfl) <;>
      cases toff <;> cases twin <;>
        simp [buildParams, paramKeys, pyTruthyStr]

/-- Concrete instantiation of the C9 empty-filter rule. -/
theorem C9_empty_filter_treated_as_absent_witness :
    ("RDG" : String) ≠ "" ∧
    ("filterType", PValue.str "from") ∈
      (buildParams "PAD" 10 (some "RDG") (some "") none none).1 :=
  ⟨by decide,
   (C9_empty_filter_treated_as_absent "PAD" 10 "RDG" none none (by decide)).2.1⟩

/-- Claim C10: no range validation is performed: any `rows`, `time_offset`
and `time_window` values, in range or not, are placed in the mapping
unchanged and the remote call still happens (no error before it). -/
theorem C10_no_range_validation (crs : String) (rows t w : Int) (dep arr : Bool)
    (ffrom fto : Option String) (h : dep = true ∨ arr = true) :
    ∃ c, get_station_board crs rows dep arr ffrom fto (some t) (some w) =
        Except.ok c ∧
      ("numRows", PValue.int rows) ∈ c.request.params ∧
      ("timeOffset", PValue.int t) ∈ c.request.params ∧
      ("timeWindow", PValue.int w) ∈ c.request.params ∧
      remoteCallCount crs rows dep arr ffrom fto (some t) (some w) = 1 := by
  have hm1 : ("numRows", PValue.int rows) ∈
      (buildParams crs rows ffrom fto (some t) (some w)).1 := by
    simp [buildParams]
  have hm2 : ("timeOffset", PValue.int t) ∈
      (buildParams crs rows ffrom fto (some t) (some w)).1 := by
    simp [buildParams]
  have hm3 : ("timeWindow", PValue.int w) ∈
      (buildParams crs rows ffrom fto (some t) (some w)).1 := by
    simp [buildParams]
  rcases h with h | h
  · subst h
    cases arr <;> exact ⟨_, rfl, hm1, hm2, hm3, rfl⟩
  · subst h
    cases dep <;> exact ⟨_, rfl, hm1, hm2, hm3, rfl⟩

/-- Concrete instantiation of C10 with all three numeric arguments out of
their documented ranges. -/
theorem C10_no_range_validation_witness :
    (true = true ∨ false = true) ∧
    ∃ c, get_station_board "PAD" 1000 true false none none (some 500) (some (-121)) =
        Except.ok c ∧
      ("numRows", PValue.int 1000) ∈ c.request.params ∧
      ("timeOffset", PValue.int 500) ∈ c.request.params ∧
      ("timeWindow", PValue.int (-121)) ∈ c.request.params ∧
      remoteCallCount "PAD" 1000 true false none none (some 500) (some (-121)) = 1 :=
  ⟨Or.inl rfl,
   C10_no_range_validation "PAD" 1000 500 (-121) true false none none (Or.inl rfl)⟩

end LDBWS
